/-
  Verification of the configuration-driven tool registry and
  multi-framework adapter layer of the stripe agent-toolkit (Python).

  Shallow embedding of:
  - `StripeAPI.run` and `StripeAPI.create_meter_event` (stripe_agent_toolkit/api.py)
  - the strands adapter `callback_wrapper` (stripe_agent_toolkit/strands/tool.py)
  - the camel adapter `StripeTool.__call__` (stripe_agent_toolkit/camel/tool.py)
  - the permission filter of `StripeAgentToolkit.__init__` (strands/toolkit.py)

  Python dicts are modelled as association lists of string keys and `Json`
  values; Python exceptions are modelled with `Except PyError`; the external
  stdlib `json.loads` / `json.dumps` are modelled concretely (ints only for
  numbers, which covers every value the claims exercise); the external
  stripe SDK and the per-operation implementation functions (functions.py)
  are abstract parameters of type `Impl`.
-/
import Mathlib

set_option maxRecDepth 4000

namespace AgentToolkit

/-- A JSON value / Python object as passed around by the adapters. Numbers are
modelled as integers (every numeric literal in the code and claims is one). -/
inductive Json where
  | null
  | bool (value : Bool)
  | num (value : Int)
  | str (value : String)
  | arr (items : List Json)
  | obj (fields : List (String × Json))
deriving Inhabited

/-- Python dict lookup (`d[k]` / `d.get(k)`) on an association list: first binding wins. -/
def alookup (k : String) : List (String × Json) → Option Json
  | [] => none
  | (k', v) :: rest => if k' = k then some v else alookup k rest

/-- Python dict assignment `d[k] = v`: overwrite the existing binding in place,
else append the new key at the end (insertion order preserved). -/
def dictSet (k : String) (v : Json) : List (String × Json) → List (String × Json)
  | [] => [(k, v)]
  | (k', v') :: rest => if k' = k then (k, v) :: rest else (k', v') :: dictSet k v rest

/-- Python truthiness of a `Json` value (used by `tool_use_id or "unknown"`). -/
def pyTruthy : Json → Bool
  | .null => false
  | .bool b => b
  | .num n => n != 0
  | .str s => s != ""
  | .arr l => !l.isEmpty
  | .obj l => !l.isEmpty

/-- Python `a or b` on `Json` values. -/
def pyOr (a b : Json) : Json := if pyTruthy a then a else b

/-- The Python type name of a value (as it appears in runtime error messages). -/
def pyTypeName : Json → String
  | .null => "NoneType"
  | .bool _ => "bool"
  | .num _ => "int"
  | .str _ => "str"
  | .arr _ => "list"
  | .obj _ => "dict"

/-- A raised Python exception, by kind, carrying its `str()` message. -/
inductive PyError where
  | valueError (msg : String)
  | typeError (msg : String)
  | attributeError (msg : String)
  | validationError (msg : String)
  | stripeError (msg : String)
deriving Repr, BEq, DecidableEq

/-- `str(e)` on an exception: its message. -/
def pyStr : PyError → String
  | .valueError m => m
  | .typeError m => m
  | .attributeError m => m
  | .validationError m => m
  | .stripeError m => m

/-! ### json.dumps (model of the Python stdlib serializer, default separators) -/

/-- Escape one character for a JSON string literal (quote and backslash;
other characters the claims exercise need no escaping). -/
def escChar (c : Char) : String :=
  if c = '"' then "\\\"" else if c = '\\' then "\\\\" else String.singleton c

/-- Render a JSON string literal with quotes. -/
def dumpStr (s : String) : String :=
  "\"" ++ String.join (s.data.map escChar) ++ "\""

mutual
/-- `json.dumps` with Python's default separators `", "` and `": "`. -/
def Json.dumps : Json → String
  | .null => "null"
  | .bool true => "true"
  | .bool false => "false"
  | .num n => toString n
  | .str s => dumpStr s
  | .arr l => "[" ++ dumpsArr l ++ "]"
  | .obj l => "\x7b" ++ dumpsObj l ++ "\x7d"
def dumpsArr : List Json → String
  | [] => ""
  | [x] => Json.dumps x
  | x :: y :: rest => Json.dumps x ++ ", " ++ dumpsArr (y :: rest)
def dumpsObj : List (String × Json) → String
  | [] => ""
  | [(k, v)] => dumpStr k ++ ": " ++ Json.dumps v
  | (k, v) :: y :: rest => dumpStr k ++ ": " ++ Json.dumps v ++ ", " ++ dumpsObj (y :: rest)
end

/-! ### json.loads (model of the Python stdlib parser; integers only) -/

/-- The four JSON whitespace characters. -/
def isSpaceChar (c : Char) : Bool :=
  c == ' ' || c == '\x0a' || c == '\x09' || c == '\x0d'

/-- Drop leading JSON whitespace from the character stream. -/
def dropSpaces (cs : List Char) : List Char := cs.dropWhile isSpaceChar

/-- Split a leading run of ASCII digits from the rest of the stream. -/
def splitDigits (cs : List Char) : List Char × List Char := cs.span Char.isDigit

/-- The numeric value of a run of ASCII digits. -/
def digitsVal (ds : List Char) : Nat :=
  ds.foldl (fun n c => 10 * n + (c.toNat - 48)) 0

/-- Parse the body of a JSON string literal (after the opening quote). -/
def parseStrBody (acc : List Char) : List Char → Option (String × List Char)
  | [] => none
  | c :: rest =>
    if c = '"' then some (String.mk acc.reverse, rest)
    else if c = '\\' then
      match rest with
      | [] => none
      | e :: rest2 =>
        let u := if e = 'n' then '\n' else if e = 't' then '\t' else if e = 'r' then '\r' else e
        parseStrBody (u :: acc) rest2
    else parseStrBody (c :: acc) rest

def obrace : Char := Char.ofNat 123
def cbrace : Char := Char.ofNat 125

mutual
/-- Fuel-based JSON value parser: returns the value and the unconsumed rest. -/
def parseJ : Nat → List Char → Option (Json × List Char)
  | 0, _ => none
  | Nat.succ fuel, cs =>
    match dropSpaces cs with
    | [] => none
    | c :: rest =>
      if c = 'n' then
        match rest with
        | 'u' :: 'l' :: 'l' :: r => some (.null, r)
        | _ => none
      else if c = 't' then
        match rest with
        | 'r' :: 'u' :: 'e' :: r => some (.bool true, r)
        | _ => none
      else if c = 'f' then
        match rest with
        | 'a' :: 'l' :: 's' :: 'e' :: r => some (.bool false, r)
        | _ => none
      else if c = '"' then
        match parseStrBody [] rest with
        | some (s, r) => some (.str s, r)
        | none => none
      else if c = '-' then
        match splitDigits rest with
        | ([], _) => none
        | (ds, r) => some (.num (-(digitsVal ds : Int)), r)
      else if c.isDigit then
        let (ds, r) := splitDigits (c :: rest)
        some (.num (digitsVal ds : Int), r)
      else if c = '[' then parseArrItems fuel (dropSpaces rest)
      else if c = obrace then parseObjItems fuel (dropSpaces rest)
      else none
/-- Parse array items after `[` (leading whitespace already skipped). -/
def parseArrItems : Nat → List Char → Option (Json × List Char)
  | 0, _ => none
  | Nat.succ fuel, cs =>
    match cs with
    | ']' :: r => some (.arr [], r)
    | _ =>
      match parseJ fuel cs with
      | none => none
      | some (v, rest) =>
        match dropSpaces rest with
        | ',' :: r2 =>
          match parseArrItems fuel (dropSpaces r2) with
          | some (.arr vs, r3) => some (.arr (v :: vs), r3)
          | _ => none
        | ']' :: r2 => some (.arr [v], r2)
        | _ => none
/-- Parse object members after the opening brace (leading whitespace skipped). -/
def parseObjItems : Nat → List Char → Option (Json × List Char)
  | 0, _ => none
  | Nat.succ fuel, cs =>
    match cs with
    | c :: r =>
      if c = cbrace then some (.obj [], r)
      else if c = '"' then
        match parseStrBody [] r with
        | none => none
        | some (k, r1) =>
          match dropSpaces r1 with
          | ':' :: r2 =>
            match parseJ fuel (dropSpaces r2) with
            | none => none
            | some (v, r3) =>
              match dropSpaces r3 with
              | ',' :: r4 =>
                match parseObjItems fuel (dropSpaces r4) with
                | some (.obj ms, r5) => some (.obj ((k, v) :: ms), r5)
                | _ => none
              | c' :: r4 =>
                if c' = cbrace then some (.obj [(k, v)], r4) else none
              | _ => none
          | _ => none
      else none
    | [] => none
end

/-- `json.loads`: parse a whole string; fail (`None` modelling a raised
`json.JSONDecodeError`) on malformed input or trailing garbage. -/
def jsonLoads (s : String) : Option Json :=
  match parseJ (s.length + 2) s.data with
  | some (v, rest) => if dropSpaces rest = [] then some v else none
  | none => none

/-! ### Dispatcher: `StripeAPI` (stripe_agent_toolkit/api.py) -/

/-- Session `Context` from configuration.py: currently just an optional
on-behalf-of account identifier (`context.get("account")`). -/
structure Context where
  account : Option String
deriving Repr, BEq, DecidableEq

/-- Keyword arguments of a dispatched call (Python `**kwargs`). -/
abbrev Args := List (String × Json)

/-- One per-operation implementation function (functions.py, external to the
dispatcher): given the method name it implements, it receives the `Context`
and keyword arguments and returns a structured result or raises. -/
abbrev Impl := String → Context → Args → Except PyError Json

/-- The keys of `StripeAPI._method_dispatch`, in source order. -/
def methodNames : List String :=
  ["create_customer", "list_customers", "create_product", "list_products",
   "create_price", "list_prices", "create_payment_link", "list_invoices",
   "create_invoice", "create_invoice_item", "finalize_invoice",
   "retrieve_balance", "create_refund", "list_payment_intents",
   "create_billing_portal_session"]

/-- `StripeAPI.run`: raise `ValueError(f"Invalid method: \x7bmethod\x7d")` when the
name is not a key of `_method_dispatch`; otherwise call the registered
implementation on the session context and the arguments and `json.dumps` its
result. -/
def StripeAPI.run (impl : Impl) (ctx : Context) (method : String) (kwargs : Args) :
    Except PyError String :=
  if method ∈ methodNames then
    match impl method ctx kwargs with
    | .ok result => .ok result.dumps
    | .error e => .error e
  else
    .error (.valueError ("Invalid method: " ++ method))

/-- The `meter_event_data` dict built by `StripeAPI.create_meter_event`:
`event_name`, `payload.stripe_customer_id`, optional `payload.value`,
and `stripe_account` when the context carries an account. -/
def meterEventData (ctx : Context) (event customer : String) (value : Option String) :
    List (String × Json) :=
  let payload :=
    [("stripe_customer_id", Json.str customer)] ++
      (match value with | some v => [("value", Json.str v)] | none => [])
  [("event_name", Json.str event), ("payload", Json.obj payload)] ++
    (match ctx.account with | some a => [("stripe_account", Json.str a)] | none => [])

/-- `StripeAPI.create_meter_event`: build the event payload and call
`stripe.billing.MeterEvent.create` (the external SDK, passed in as
`sdkCreate`). There is no exception handler in this function. -/
def StripeAPI.create_meter_event (sdkCreate : List (String × Json) → Except PyError Unit)
    (ctx : Context) (event customer : String) (value : Option String) :
    Except PyError Unit :=
  sdkCreate (meterEventData ctx event customer value)

/-! ### Camel adapter: `StripeTool.__call__` (stripe_agent_toolkit/camel/tool.py) -/

/-- `StripeTool.__call__`: when an `args_schema` is set, validate and coerce the
keyword arguments through it (pydantic `self.args_schema(**kwargs)` followed by
`.dict()`, modelled as the abstract `validate`), then run the operation; with
no schema, run it on the raw arguments. No exception is caught here. -/
def StripeTool.call (validate : Option (Args → Except PyError Args)) (impl : Impl)
    (ctx : Context) (method : String) (kwargs : Args) : Except PyError String :=
  match validate with
  | some v =>
    match v kwargs with
    | .ok validated => StripeAPI.run impl ctx method validated
    | .error e => .error e
  | none => StripeAPI.run impl ctx method kwargs

/-! ### Strands adapter: `callback_wrapper` (stripe_agent_toolkit/strands/tool.py) -/

/-- The `tool_input` handed to `callback_wrapper` by the strands framework:
a dict, a string, or anything else (the `isinstance` checks in the source). -/
inductive ToolInput where
  | dict (d : List (String × Json))
  | str (s : String)
  | other
deriving Inhabited

/-- The success `ToolResult` dict built by `callback_wrapper`:
`content=[...]`, `status="success"`, `toolUseId=tool_use_id or "unknown"`. -/
def successResponse (result : String) (tool_use_id : Json) : Json :=
  .obj [("content", .arr [.obj [("text", .str result)]]),
        ("status", .str "success"),
        ("toolUseId", pyOr tool_use_id (.str "unknown"))]

/-- The error `ToolResult` dict built by `callback_wrapper`:
`content=[\x7btext: f"Error: ..."\x7d]`, `status="error"`, same `toolUseId` rule. -/
def errorResponse (e : PyError) (tool_use_id : Json) : Json :=
  .obj [("content", .arr [.obj [("text", .str ("Error: " ++ pyStr e))]]),
        ("status", .str "error"),
        ("toolUseId", pyOr tool_use_id (.str "unknown"))]

/-- `api.run(tool["method"], **actual_params)`: expanding `**` requires the
params to be a mapping — a non-dict value raises a `TypeError` at the call
site (inside the adapter's try block). -/
def dispatchParams (impl : Impl) (ctx : Context) (method : String) (params : Json) :
    Except PyError String :=
  match params with
  | .obj kvs => StripeAPI.run impl ctx method kvs
  | p => .error (.typeError ("run() argument after ** must be a mapping, not " ++ pyTypeName p))

/-- The try/except around the dispatch in `callback_wrapper`: every exception
from the dispatch is caught and rendered as an error `ToolResult`. -/
def wrapDispatch (impl : Impl) (ctx : Context) (method : String) (params : Json)
    (tool_use_id : Json) : Json :=
  match dispatchParams impl ctx method params with
  | .ok result => successResponse result tool_use_id
  | .error e => errorResponse e tool_use_id

/-- `callback_wrapper` from strands/tool.py. The envelope unwrap:
a dict containing `toolUseId` takes its params from the `input` sub-field
(default empty); a string is `json.loads`-parsed, with decode errors giving
empty params, but `.get` on a parsed non-dict raises an uncaught
`AttributeError` (outside the dispatch try block, so it escapes — modelled by
`Except.error`); any other dict is shallow-copied; anything else gives empty
params. The dispatch and result wrap are inside the try block. -/
def callback_wrapper (impl : Impl) (ctx : Context) (method : String)
    (tool_input : ToolInput) : Except PyError Json :=
  match tool_input with
  | .dict d =>
    match alookup "toolUseId" d with
    | some tuid =>
      .ok (wrapDispatch impl ctx method ((alookup "input" d).getD (.obj [])) tuid)
    | none => .ok (wrapDispatch impl ctx method (.obj d) .null)
  | .str s =>
    match jsonLoads s with
    | some parsed =>
      match parsed with
      | .obj kvs =>
        .ok (wrapDispatch impl ctx method ((alookup "input" kvs).getD (.obj kvs))
              ((alookup "toolUseId" kvs).getD .null))
      | p => .error (.attributeError ("'" ++ pyTypeName p ++ "' object has no attribute 'get'"))
    | none => .ok (wrapDispatch impl ctx method (.obj []) .null)
  | .other => .ok (wrapDispatch impl ctx method (.obj []) .null)

/-! ### Schema projection (StripeTool in strands/tool.py) -/

/-- The schema projection performed by `StripeTool` before exposing a tool:
take the pydantic-rendered base schema and set
`parameters["additionalProperties"] = False` then `parameters["type"] = "object"`. -/
def projectSchema (base : List (String × Json)) : List (String × Json) :=
  dictSet "type" (.str "object") (dictSet "additionalProperties" (.bool false) base)

/-! ### Permission filter (strands/toolkit.py + configuration.py) -/

/-- An operation descriptor from the catalogue, reduced to the fields the
permission filter reads: its permission category and action. -/
structure ToolDescriptor where
  method : String
  description : String
  category : String
  action : String
deriving Repr, BEq, DecidableEq

/-- A per-session `Configuration`: an explicit allow-list mapping category to
action to a boolean, plus the optional tenant context. -/
structure Configuration where
  actions : List (String × List (String × Bool))
  context : Option Context
deriving Repr, BEq, DecidableEq

/-- Boolean association-list lookup for configuration tables. -/
def blookup {α : Type} (k : String) : List (String × α) → Option α
  | [] => none
  | (k', v) :: rest => if k' = k then some v else blookup k rest

/-- Modelled from the spec: `is_tool_allowed` (configuration.py, not under
src/). An operation is allowed only when the configuration explicitly maps its
category and action to `true`; a missing configuration, category or action
means denied (deny-by-default), and configuration entries for other categories
or actions are simply never consulted. -/
def is_tool_allowed (tool : ToolDescriptor) (config : Option Configuration) : Bool :=
  match config with
  | none => false
  | some c =>
    match blookup tool.category c.actions with
    | none => false
    | some acts => (blookup tool.action acts).getD false

/-- The permission filter applied in `StripeAgentToolkit.__init__`:
`[tool for tool in tools if is_tool_allowed(tool, configuration)]`. -/
def filtered_tools (tools : List ToolDescriptor) (config : Option Configuration) :
    List ToolDescriptor :=
  tools.filter (fun t => is_tool_allowed t config)

/-! ### Concrete instances used in witnesses -/

/-- A benign concrete implementation standing in for a functions.py handler. -/
def implOk : Impl := fun _ _ _ => Except.ok (Json.obj [("id", Json.str "cus_1")])

/-- An implementation that reports whether it received an (unvalidated)
extra keyword argument named `bogus`. -/
def implSees : Impl := fun _ _ args =>
  if (alookup "bogus" args).isSome then Except.ok (Json.str "saw-bogus")
  else Except.ok (Json.str "no-bogus")

/-- The empty session context. -/
def ctx0 : Context := ⟨none⟩

/-- The `toolUseId` field of a `ToolResult` response dict. -/
def respToolUseId : Json → Option Json
  | .obj ms => alookup "toolUseId" ms
  | _ => none

/-- `create_product` descriptor (category products, action create),
as in the spec's filtering scenario. -/
def createProductDesc : ToolDescriptor :=
  ⟨"create_product", "Create a product", "products", "create"⟩

/-- `list_products` descriptor (category products, action list). -/
def listProductsDesc : ToolDescriptor :=
  ⟨"list_products", "List products", "products", "list"⟩

/-- The spec's scenario configuration: `actions.products.create = true`. -/
def configProductsCreate : Configuration := ⟨[("products", [("create", true)])], none⟩

/-! ## Helper lemmas on the Python-dict model -/

theorem alookup_dictSet_same (k : String) (v : Json) (l : List (String × Json)) :
    alookup k (dictSet k v l) = some v := by
  induction l with
  | nil => simp [dictSet, alookup]
  | cons hd tl ih =>
    obtain ⟨k', v'⟩ := hd
    by_cases h : k' = k
    · simp [dictSet, alookup, h]
    · simp [dictSet, alookup, h, ih]

theorem alookup_dictSet_ne (k k' : String) (v : Json) (l : List (String × Json))
    (h : k' ≠ k) : alookup k (dictSet k' v l) = alookup k l := by
  induction l with
  | nil => simp [dictSet, alookup, h]
  | cons hd tl ih =>
    obtain ⟨k'', v''⟩ := hd
    by_cases h2 : k'' = k'
    · subst h2; simp [dictSet, alookup, h]
    · by_cases h3 : k'' = k
      · subst h3; simp [dictSet, alookup, h2]
      · simp [dictSet, alookup, h2, h3, ih]

theorem dictSet_dictSet_same (k : String) (v v' : Json) (l : List (String × Json)) :
    dictSet k v (dictSet k v' l) = dictSet k v l := by
  induction l with
  | nil => simp [dictSet]
  | cons hd tl ih =>
    obtain ⟨k'', v''⟩ := hd
    by_cases h : k'' = k
    · simp [dictSet, h]
    · simp [dictSet, h, ih]

theorem dictSet_self (k : String) (v : Json) (l : List (String × Json))
    (h : alookup k l = some v) : dictSet k v l = l := by
  induction l with
  | nil => simp [alookup] at h
  | cons hd tl ih =>
    obtain ⟨k'', v''⟩ := hd
    by_cases h2 : k'' = k
    · subst h2
      simp [alookup] at h
      simp [dictSet, h]
    · simp [alookup, h2] at h
      simp [dictSet, h2, ih h]

/-! ## Claim theorems -/

/-- C3: `StripeAPI.run` fails with `ValueError("Invalid method: ...")` exactly
when the operation name is not a key of `_method_dispatch`; when it is
registered, it invokes the registered implementation on the session context
and the arguments and returns the result serialized with `json.dumps`. -/
theorem run_dispatch_spec (impl : Impl) (ctx : Context) (method : String) (kwargs : Args) :
    (method ∉ methodNames →
      StripeAPI.run impl ctx method kwargs =
        Except.error (PyError.valueError ("Invalid method: " ++ method))) ∧
    (method ∈ methodNames →
      StripeAPI.run impl ctx method kwargs = (impl method ctx kwargs).map Json.dumps) := by
  constructor
  · intro h
    simp [StripeAPI.run, h]
  · intro h
    simp only [StripeAPI.run, if_pos h]
    cases impl method ctx kwargs <;> rfl

/-- C3 witness: a registered method dispatches and serializes; an unregistered
one raises `ValueError` with the method name in the message. -/
theorem run_dispatch_spec_witness :
    StripeAPI.run implOk ctx0 "create_customer" [] = Except.ok "\x7b\"id\": \"cus_1\"\x7d" ∧
    StripeAPI.run implOk ctx0 "bogus" [] =
      Except.error (PyError.valueError "Invalid method: bogus") := by
  constructor
  · rw [(run_dispatch_spec implOk ctx0 "create_customer" []).2 (by decide)]
    rfl
  · rw [(run_dispatch_spec implOk ctx0 "bogus" []).1 (by decide)]
    rfl

/-- C9: a string envelope that is valid JSON but not a JSON object (a list or
a number) makes the strands adapter's unwrap call `.get` on a non-dict, which
raises an `AttributeError` outside the try block around the dispatch — the
exception escapes the adapter for every implementation and context. -/
theorem non_object_json_envelope_raises (impl : Impl) (ctx : Context) (method : String) :
    callback_wrapper impl ctx method (ToolInput.str "[1, 2]") =
      Except.error (PyError.attributeError "'list' object has no attribute 'get'") ∧
    callback_wrapper impl ctx method (ToolInput.str "5") =
      Except.error (PyError.attributeError "'int' object has no attribute 'get'") :=
  ⟨rfl, rfl⟩

/-- C5: a string envelope that fails JSON parsing is treated as the empty
argument mapping: the adapter proceeds to the dispatch (inside its try block)
with no arguments and a `None` correlation id, and no parse exception is
propagated to the framework. -/
theorem malformed_envelope_empty_args (impl : Impl) (ctx : Context) (method : String)
    (s : String) (h : jsonLoads s = none) :
    callback_wrapper impl ctx method (ToolInput.str s) =
      Except.ok (wrapDispatch impl ctx method (Json.obj []) Json.null) := by
  simp [callback_wrapper, h]

/-- C5 witness: the spec's malformed envelope dispatches with empty arguments
and wraps the dispatch outcome rather than raising. -/
theorem malformed_envelope_empty_args_witness :
    jsonLoads "not-json\x7b" = none ∧
    callback_wrapper implOk ctx0 "create_product" (ToolInput.str "not-json\x7b") =
      Except.ok (wrapDispatch implOk ctx0 "create_product" (Json.obj []) Json.null) :=
  ⟨rfl, malformed_envelope_empty_args implOk ctx0 "create_product" "not-json\x7b" rfl⟩

/-- C1 counterexample: the camel adapter's `__call__` has no exception
handler — invoking it with an unregistered operation name propagates the
dispatcher's `ValueError` to the host framework instead of returning a
result envelope describing the failure. -/
theorem camel_call_raises_cex :
    StripeTool.call none implOk ctx0 "bad_method" [] =
      Except.error (PyError.valueError "Invalid method: bad_method") := rfl

/-- C1 (amended): the strands adapter returns a result envelope for every
mapping envelope (no exception escapes), rendering any dispatch failure as an
error envelope; the camel adapter propagates dispatch failures to the caller. -/
theorem adapter_failure_boundary (impl : Impl) (ctx : Context) (method : String)
    (d : List (String × Json)) (e : PyError) (kwargs : Args) :
    (∃ r, callback_wrapper impl ctx method (ToolInput.dict d) = Except.ok r) ∧
    (∀ params tuid, dispatchParams impl ctx method params = Except.error e →
      wrapDispatch impl ctx method params tuid = errorResponse e tuid) ∧
    StripeTool.call none (fun _ _ _ => Except.error e) ctx "create_customer" kwargs =
      Except.error e := by
  refine ⟨?_, ?_, ?_⟩
  · cases h : alookup "toolUseId" d with
    | none =>
      exact ⟨wrapDispatch impl ctx method (Json.obj d) Json.null,
        by simp [callback_wrapper, h]⟩
    | some t =>
      exact ⟨wrapDispatch impl ctx method ((alookup "input" d).getD (Json.obj [])) t,
        by simp [callback_wrapper, h]⟩
  · intro params tuid hp
    simp [wrapDispatch, hp]
  · rfl

/-- C1 (amended) witness: a provider failure surfaces as an error envelope in
the strands adapter but as a raised exception in the camel adapter. -/
theorem adapter_failure_boundary_witness :
    wrapDispatch (fun _ _ _ => Except.error (PyError.stripeError "rate limited")) ctx0
        "create_refund" (Json.obj []) Json.null =
      errorResponse (PyError.stripeError "rate limited") Json.null ∧
    StripeTool.call none (fun _ _ _ => Except.error (PyError.stripeError "rate limited"))
        ctx0 "create_customer" [] =
      Except.error (PyError.stripeError "rate limited") :=
  ⟨(adapter_failure_boundary (fun _ _ _ => Except.error (PyError.stripeError "rate limited"))
      ctx0 "create_refund" [] (PyError.stripeError "rate limited") []).2.1
      (Json.obj []) Json.null rfl,
   (adapter_failure_boundary (fun _ _ _ => Except.error (PyError.stripeError "rate limited"))
      ctx0 "create_customer" [] (PyError.stripeError "rate limited") []).2.2⟩

/-- C2 counterexample: an unknown extra field in the envelope is not rejected:
the strands adapter passes it straight through `StripeAPI.run` to the
implementation function, which observes it, and the call succeeds — no
validation happens before the implementation is invoked on this path. -/
theorem no_validation_cex :
    callback_wrapper implSees ctx0 "create_product" (ToolInput.dict [("bogus", Json.num 1)]) =
      Except.ok (successResponse "\"saw-bogus\"" Json.null) := rfl

/-- C2 (amended): argument validation and coercion happen only in the camel
adapter and only when an `args_schema` is present — there the schema is applied
before dispatch and a validation failure aborts the call (uncaught); the
dispatcher `StripeAPI.run` itself passes the arguments to the implementation
unvalidated. -/
theorem validation_only_in_camel (validate : Args → Except PyError Args) (impl : Impl)
    (ctx : Context) (method : String) (kwargs validated : Args) (e : PyError) :
    (validate kwargs = Except.ok validated →
      StripeTool.call (some validate) impl ctx method kwargs =
        StripeAPI.run impl ctx method validated) ∧
    (validate kwargs = Except.error e →
      StripeTool.call (some validate) impl ctx method kwargs = Except.error e) ∧
    (method ∈ methodNames →
      StripeAPI.run impl ctx method kwargs = (impl method ctx kwargs).map Json.dumps) := by
  refine ⟨?_, ?_, ?_⟩
  · intro h
    simp [StripeTool.call, h]
  · intro h
    simp [StripeTool.call, h]
  · intro h
    simp only [StripeAPI.run, if_pos h]
    cases impl method ctx kwargs <;> rfl

/-- C2 (amended) witness: the camel adapter dispatches the schema-coerced
arguments on success and re-raises the validation error on failure. -/
theorem validation_only_in_camel_witness :
    StripeTool.call (some (fun _ => Except.ok [("unit_amount", Json.num 100)])) implOk ctx0
        "create_price" [("unit_amount", Json.str "100")] =
      StripeAPI.run implOk ctx0 "create_price" [("unit_amount", Json.num 100)] ∧
    StripeTool.call (some (fun _ => Except.error (PyError.validationError "unit_amount: int expected")))
        implOk ctx0 "create_price" [] =
      Except.error (PyError.validationError "unit_amount: int expected") :=
  ⟨(validation_only_in_camel (fun _ => Except.ok [("unit_amount", Json.num 100)]) implOk ctx0
      "create_price" [("unit_amount", Json.str "100")] [("unit_amount", Json.num 100)]
      (PyError.validationError "unused")).1 rfl,
   (validation_only_in_camel (fun _ => Except.error (PyError.validationError "unit_amount: int expected"))
      implOk ctx0 "create_price" [] []
      (PyError.validationError "unit_amount: int expected")).2.1 rfl⟩

/-- C4: the round-trip envelope with `toolUseId "abc"` and nested `input`
dispatches with exactly the `input` arguments and the response carries
`toolUseId "abc"`; an envelope without a correlation identifier produces the
placeholder `"unknown"` in the response, in both the success and the error
case (the `toolUseId` field is computed the same way in both branches of the
wrap). -/
theorem strands_round_trip (impl : Impl) (ctx : Context) (method : String)
    (d : List (String × Json)) (p : Json) :
    (callback_wrapper impl ctx method (ToolInput.dict
        [("toolUseId", Json.str "abc"),
         ("input", Json.obj [("name", Json.str "test"), ("price", Json.num 100)])]) =
      Except.ok (wrapDispatch impl ctx method
        (Json.obj [("name", Json.str "test"), ("price", Json.num 100)]) (Json.str "abc"))) ∧
    (respToolUseId (wrapDispatch impl ctx method p (Json.str "abc")) = some (Json.str "abc")) ∧
    (alookup "toolUseId" d = none →
      callback_wrapper impl ctx method (ToolInput.dict d) =
        Except.ok (wrapDispatch impl ctx method (Json.obj d) Json.null)) ∧
    (respToolUseId (wrapDispatch impl ctx method p Json.null) = some (Json.str "unknown")) := by
  refine ⟨rfl, ?_, ?_, ?_⟩
  · cases h : dispatchParams impl ctx method p <;> simp only [wrapDispatch, h] <;> rfl
  · intro h
    simp [callback_wrapper, h]
  · cases h : dispatchParams impl ctx method p <;> simp only [wrapDispatch, h] <;> rfl

/-- C4 witness: a mapping envelope with no `toolUseId` key dispatches on itself
and the response's `toolUseId` is the placeholder `"unknown"`. -/
theorem strands_round_trip_witness :
    callback_wrapper implOk ctx0 "create_product" (ToolInput.dict [("name", Json.str "x")]) =
      Except.ok (wrapDispatch implOk ctx0 "create_product"
        (Json.obj [("name", Json.str "x")]) Json.null) ∧
    respToolUseId (wrapDispatch implOk ctx0 "create_product" (Json.obj []) Json.null) =
      some (Json.str "unknown") :=
  ⟨(strands_round_trip implOk ctx0 "create_product" [("name", Json.str "x")] (Json.obj [])).2.2.1 rfl,
   (strands_round_trip implOk ctx0 "create_product" [] (Json.obj [])).2.2.2⟩

/-- C6 counterexample: `create_meter_event` contains no exception handler, so
an error raised by the SDK meter-event call propagates to the caller instead
of being swallowed in this function. -/
theorem meter_event_error_propagates_cex :
    StripeAPI.create_meter_event (fun _ => Except.error (PyError.stripeError "boom"))
      ctx0 "tokens_used" "cus_1" none = Except.error (PyError.stripeError "boom") := rfl

/-- C6 (amended): `create_meter_event` builds the meter-event payload — scoped
by `context.account` exactly when one is present — and calls the SDK directly;
whatever the SDK call returns or raises is the result of this function, with
no swallowing at this layer. -/
theorem meter_event_spec (sdkCreate : List (String × Json) → Except PyError Unit)
    (ctx : Context) (event customer : String) (value : Option String) (a : String) :
    (StripeAPI.create_meter_event sdkCreate ctx event customer value =
      sdkCreate (meterEventData ctx event customer value)) ∧
    (ctx.account = some a →
      alookup "stripe_account" (meterEventData ctx event customer value) =
        some (Json.str a)) ∧
    (ctx.account = none →
      alookup "stripe_account" (meterEventData ctx event customer value) = none) ∧
    (alookup "event_name" (meterEventData ctx event customer value) =
      some (Json.str event)) := by
  refine ⟨rfl, ?_, ?_, rfl⟩
  · intro h
    simp only [meterEventData, h]
    rfl
  · intro h
    simp only [meterEventData, h]
    rfl

/-- C6 (amended) witness: with an account in context the payload is scoped by
`stripe_account`, and a successful SDK call passes its result through. -/
theorem meter_event_spec_witness :
    alookup "stripe_account" (meterEventData ⟨some "acct_1"⟩ "tokens_used" "cus_1" (some "3")) =
      some (Json.str "acct_1") ∧
    StripeAPI.create_meter_event (fun _ => Except.ok ()) ⟨some "acct_1"⟩
      "tokens_used" "cus_1" (some "3") = Except.ok () :=
  ⟨(meter_event_spec (fun _ => Except.ok ()) ⟨some "acct_1"⟩ "tokens_used" "cus_1"
      (some "3") "acct_1").2.1 rfl,
   by rw [(meter_event_spec (fun _ => Except.ok ()) ⟨some "acct_1"⟩ "tokens_used" "cus_1"
      (some "3") "acct_1").1]⟩

/-- C7 (spec-modelled filter): an operation passes the permission filter iff it
is in the catalogue and the configuration explicitly maps its category and
action to `true`; a missing or empty configuration yields the empty filtered
set (deny-by-default), and entries for other categories or actions are never
consulted (the lookups are total, so unknown keys cannot raise). -/
theorem permission_filter_spec (K : List ToolDescriptor) (config : Option Configuration)
    (o : ToolDescriptor) (ctxOpt : Option Context) :
    (o ∈ filtered_tools K config ↔ o ∈ K ∧ is_tool_allowed o config = true) ∧
    (is_tool_allowed o config = true ↔
      ∃ c acts, config = some c ∧ blookup o.category c.actions = some acts ∧
        blookup o.action acts = some true) ∧
    filtered_tools K none = [] ∧
    filtered_tools K (some ⟨[], ctxOpt⟩) = [] := by
  refine ⟨?_, ?_, ?_, ?_⟩
  · simp [filtered_tools, List.mem_filter]
  · cases config with
    | none => simp [is_tool_allowed]
    | some c =>
      cases h : blookup o.category c.actions with
      | none => simp [is_tool_allowed, h]
      | some acts =>
        cases h2 : blookup o.action acts with
        | none => simp [is_tool_allowed, h, h2]
        | some b => cases b <;> simp [is_tool_allowed, h, h2]
  · simp [filtered_tools, is_tool_allowed]
  · simp [filtered_tools, is_tool_allowed, blookup]

/-- C7 witness: the spec's scenario — configuration allowing only
`products.create` keeps `create_product`, drops `list_products`, and the
missing configuration keeps nothing. -/
theorem permission_filter_spec_witness :
    createProductDesc ∈
      filtered_tools [createProductDesc, listProductsDesc] (some configProductsCreate) ∧
    listProductsDesc ∉
      filtered_tools [createProductDesc, listProductsDesc] (some configProductsCreate) ∧
    filtered_tools [createProductDesc, listProductsDesc] none = [] := by
  refine ⟨?_, ?_, ?_⟩
  · exact (permission_filter_spec [createProductDesc, listProductsDesc]
      (some configProductsCreate) createProductDesc none).1.mpr ⟨by simp, rfl⟩
  · intro hmem
    have h := ((permission_filter_spec [createProductDesc, listProductsDesc]
      (some configProductsCreate) listProductsDesc none).1.mp hmem).2
    simp [is_tool_allowed, configProductsCreate, listProductsDesc, blookup] at h
  · exact (permission_filter_spec [createProductDesc, listProductsDesc] none
      createProductDesc none).2.2.1

/-- C8: the schema projection always yields a closed object schema
(`type: "object"`, `additionalProperties: false`), is idempotent, and — being
a pure function — serializing its output twice gives byte-identical text. -/
theorem schema_projection_spec (base : List (String × Json)) :
    alookup "type" (projectSchema base) = some (Json.str "object") ∧
    alookup "additionalProperties" (projectSchema base) = some (Json.bool false) ∧
    projectSchema (projectSchema base) = projectSchema base ∧
    Json.dumps (Json.obj (projectSchema base)) = Json.dumps (Json.obj (projectSchema base)) := by
  have h1 : alookup "additionalProperties" (projectSchema base) = some (Json.bool false) := by
    rw [projectSchema, alookup_dictSet_ne _ _ _ _ (by decide), alookup_dictSet_same]
  have h3 : alookup "type" (projectSchema base) = some (Json.str "object") :=
    alookup_dictSet_same _ _ _
  refine ⟨h3, h1, ?_, rfl⟩
  show dictSet "type" (Json.str "object")
      (dictSet "additionalProperties" (Json.bool false) (projectSchema base)) =
    projectSchema base
  rw [dictSet_self _ _ _ h1, dictSet_self _ _ _ h3]

/-- C10: a mapping envelope containing `toolUseId` dispatches exclusively on
its `input` sub-field (empty when absent, all other top-level keys dropped);
a mapping envelope without `toolUseId` dispatches on a shallow copy of the
mapping itself. -/
theorem strands_envelope_unwrap (impl : Impl) (ctx : Context) (method : String)
    (d : List (String × Json)) (t : Json) :
    (alookup "toolUseId" d = some t →
      callback_wrapper impl ctx method (ToolInput.dict d) =
        Except.ok (wrapDispatch impl ctx method ((alookup "input" d).getD (Json.obj [])) t)) ∧
    (alookup "toolUseId" d = none →
      callback_wrapper impl ctx method (ToolInput.dict d) =
        Except.ok (wrapDispatch impl ctx method (Json.obj d) Json.null)) := by
  constructor <;> intro h <;> simp [callback_wrapper, h]

/-- C10 witness: an extra top-level key next to `toolUseId` is dropped, while a
mapping without `toolUseId` is dispatched as the arguments itself. -/
theorem strands_envelope_unwrap_witness :
    callback_wrapper implOk ctx0 "create_product"
        (ToolInput.dict [("toolUseId", Json.str "id1"),
                         ("input", Json.obj [("name", Json.str "x")]),
                         ("extra", Json.num 7)]) =
      Except.ok (wrapDispatch implOk ctx0 "create_product"
        (Json.obj [("name", Json.str "x")]) (Json.str "id1")) ∧
    callback_wrapper implOk ctx0 "create_product" (ToolInput.dict [("k", Json.num 1)]) =
      Except.ok (wrapDispatch implOk ctx0 "create_product"
        (Json.obj [("k", Json.num 1)]) Json.null) :=
  ⟨(strands_envelope_unwrap implOk ctx0 "create_product"
      [("toolUseId", Json.str "id1"), ("input", Json.obj [("name", Json.str "x")]),
       ("extra", Json.num 7)] (Json.str "id1")).1 rfl,
   (strands_envelope_unwrap implOk ctx0 "create_product"
      [("k", Json.num 1)] (Json.str "id1")).2 rfl⟩

end AgentToolkit
